import Mathlib

/-!
Verification development for the magic_pencil_guide drawing-tutorial server.

The server (`test-nano-banana.js`) orchestrates a pipeline of external
generative-AI calls: reference-sketch synthesis, image analysis, step-count
estimation, tutorial-plan generation, a sequential loop of step-image
generation calls with a bounded window of previous step images, placeholder
audio narration, and final response assembly.

The embedding below is shallow: every external call is represented by an
oracle value describing what that call returned (or that it threw), and the
surrounding JavaScript control flow is translated into pure Lean functions.
JavaScript `null`-able record fields become `Option`; a JavaScript function
that can return `null` itself (as opposed to a record of nulls) returns an
`Option` of the record; thrown exceptions become `Except.error`.
-/

namespace NanoBanana

/-- Whitespace as matched by JavaScript `trim` and the regex class `\s`
(restricted to the ASCII part, which is all the server ever feeds it). -/
def isSpaceJS (c : Char) : Bool :=
  c = ' ' || c = '\t' || c = '\n' || c = '\r' || c = '\x0b' || c = '\x0c'

/-- JavaScript `String.prototype.trim`: drop leading and trailing whitespace. -/
def jsTrim (s : String) : String :=
  ⟨((s.data.dropWhile isSpaceJS).reverse.dropWhile isSpaceJS).reverse⟩

/-- Value of a character as a digit in the given radix (10 or 16), as used by
JavaScript `parseInt`. -/
def digitValue (radix : Nat) (c : Char) : Option Nat :=
  if radix = 16 then
    if '0' ≤ c ∧ c ≤ '9' then some (c.toNat - '0'.toNat)
    else if 'a' ≤ c ∧ c ≤ 'f' then some (c.toNat - 'a'.toNat + 10)
    else if 'A' ≤ c ∧ c ≤ 'F' then some (c.toNat - 'A'.toNat + 10)
    else none
  else
    if '0' ≤ c ∧ c ≤ '9' then some (c.toNat - '0'.toNat) else none

/-- JavaScript `parseInt(s)` with no radix argument: skip whitespace, read an
optional sign, detect a `0x`/`0X` hexadecimal marker (otherwise radix 10),
then read the longest run of radix digits; `none` models `NaN` (no digits). -/
def parseIntJS (s : String) : Option Int :=
  let cs := s.data.dropWhile isSpaceJS
  let (sign, cs1) : Int × List Char :=
    match cs with
    | '-' :: rest => (-1, rest)
    | '+' :: rest => (1, rest)
    | _ => (1, cs)
  let (radix, cs2) : Nat × List Char :=
    match cs1 with
    | '0' :: 'x' :: rest => (16, rest)
    | '0' :: 'X' :: rest => (16, rest)
    | _ => (10, cs1)
  let ds := cs2.takeWhile (fun c => (digitValue radix c).isSome)
  if ds.isEmpty then none
  else some (sign * (ds.foldl (fun acc c => acc * radix + (digitValue radix c).getD 0) 0 : Nat))

/-- Body of `determineOptimalSteps` after the model call returned `stepsText`
(`test-nano-banana.js:473-485`): `parseInt(stepsText.trim())`, then substitute
12 whenever the result is `NaN` or outside `[8, 20]`. -/
def determineOptimalSteps (stepsText : String) : Int :=
  match parseIntJS (jsTrim stepsText) with
  | none => 12
  | some stepsNumber =>
      if stepsNumber < 8 ∨ stepsNumber > 20 then 12 else stepsNumber

/-- `determineOptimalSteps` including its `catch` branch
(`test-nano-banana.js:486-489`): a thrown external call yields the default 12. -/
def determineOptimalStepsE (resp : Except Unit String) : Int :=
  match resp with
  | Except.error _ => 12
  | Except.ok stepsText => determineOptimalSteps stepsText

/-- One line of the plan response (`test-nano-banana.js:521-529`): trim the
line; if it starts with one or more digits followed by a period, strip that
numeral, the following whitespace and surrounding whitespace, and keep the
result when non-empty. -/
def parseStepLine (line : String) : Option String :=
  let trimmedLine := jsTrim line
  match trimmedLine.data.takeWhile Char.isDigit, trimmedLine.data.dropWhile Char.isDigit with
  | [], _ => none
  | _ :: _, '.' :: afterDot =>
      let stepText := jsTrim ⟨afterDot.dropWhile isSpaceJS⟩
      if stepText = "" then none else some stepText
  | _ :: _, _ => none

/-- The accumulation loop over response lines (`test-nano-banana.js:518-530`):
push every parsed step line, in encounter order. -/
def collectPlanSteps : List String → List String → List String
  | [], planSteps => planSteps
  | line :: rest, planSteps =>
      match parseStepLine line with
      | some stepText => collectPlanSteps rest (planSteps ++ [stepText])
      | none => collectPlanSteps rest planSteps

/-- The generic filler pushed when the plan is short (`test-nano-banana.js:534`). -/
def fillerStep : String := "Continue adding details to your drawing."

/-- The `while (planSteps.length < totalSteps)` padding loop
(`test-nano-banana.js:533-535`), run with explicit fuel: each iteration grows
the list by one, so `totalSteps` iterations always suffice. -/
def padPlanGo (totalSteps : Nat) : Nat → List String → List String
  | 0, planSteps => planSteps
  | fuel + 1, planSteps =>
      if planSteps.length < totalSteps then padPlanGo totalSteps fuel (planSteps ++ [fillerStep])
      else planSteps

/-- Padding of a parsed plan up to `totalSteps` entries. -/
def padPlan (planSteps : List String) (totalSteps : Nat) : List String :=
  padPlanGo totalSteps totalSteps planSteps

/-- JavaScript `planText.split('\n')` (`test-nano-banana.js:519`): the list of
segments between newline characters, written by structural recursion over the
character list. -/
def splitOnNewline (cs : List Char) : List String :=
  match cs with
  | [] => [""]
  | c :: rest =>
      if c = '\n' then "" :: splitOnNewline rest
      else
        match splitOnNewline rest with
        | [] => [⟨[c]⟩]
        | s :: ss => ⟨c :: s.data⟩ :: ss

/-- `generateTutorialPlan`'s `try` body after the model call returned
`planText` (`test-nano-banana.js:515-538`): split on newlines, collect
numbered lines, pad with the filler, truncate to exactly `totalSteps`. -/
def generateTutorialPlanFromText (planText : String) (totalSteps : Nat) : List String :=
  (padPlan (collectPlanSteps (splitOnNewline planText.data) []) totalSteps).take totalSteps

/-- The generic plan built in `generateTutorialPlan`'s `catch` branch
(`test-nano-banana.js:542-546`). -/
def genericPlan (totalSteps : Nat) : List String :=
  (List.range totalSteps).map
    (fun i => "Work on part " ++ toString (i + 1) ++ " of your drawing.")

/-- `generateTutorialPlan` (`test-nano-banana.js:493-548`): parse the model
response on success, substitute the fully generic plan when the external call
throws. -/
def generateTutorialPlan (resp : Except Unit String) (totalSteps : Nat) : List String :=
  match resp with
  | Except.ok planText => generateTutorialPlanFromText planText totalSteps
  | Except.error _ => genericPlan totalSteps

/-- An inline image payload as carried through the pipeline
(`part.inlineData`: base64 data plus MIME type). -/
structure InlineData where
  data : String
  mimeType : String
deriving DecidableEq, Repr

/-- One element of a `generateContent` content array: either a prompt string
or an inline image part. -/
inductive ContentPart where
  | text (s : String)
  | inlineImage (d : InlineData)
deriving DecidableEq, Repr

/-- Outcome of one external step-image `generateContent` call, as seen by
`generateStepImage`: the call threw, the response carried no inline image
part, or its first inline image part was `d`. -/
inductive StepCallResult where
  | callError
  | noImage
  | image (d : InlineData)
deriving DecidableEq, Repr

/-- The step-image prompt template (`test-nano-banana.js:225-235`). -/
def stepImagePrompt (stepDescription : String) (stepNumber totalSteps : Nat) : String :=
  "You are a patient art teacher helping children learn to draw step by step.\n    \nIMPORTANT INSTRUCTIONS FOR THIS STEP:\n- This is STEP "
    ++ toString stepNumber ++ " of " ++ toString totalSteps
    ++ " total steps\n- ONLY focus on the specific objective for this step: \""
    ++ stepDescription
    ++ "\"\n- DO NOT add elements from future steps\n- MAINTAIN the progress from the previous step\n- Keep the drawing in black and white pencil style, no colors\n- Show clear progression but don't rush to finish the entire drawing early\n\nCreate a black and white pencil drawing that shows ONLY the progress for this specific step. Focus exclusively on \""
    ++ stepDescription ++ "\" and nothing else."

/-- The content array built by `generateStepImage`
(`test-nano-banana.js:239-248`): the prompt, the reference sketch, and — when
`previousStepsImagesData` is non-empty — only its last (most recent) entry. -/
def stepImageContent (imagePrompt : String) (referenceImageData : InlineData)
    (previousStepsImagesData : List InlineData) : List ContentPart :=
  let content := [ContentPart.text imagePrompt, ContentPart.inlineImage referenceImageData]
  if h : previousStepsImagesData.length > 0 then
    content ++ [ContentPart.inlineImage
      (previousStepsImagesData.get ⟨previousStepsImagesData.length - 1, by omega⟩)]
  else content

/-- Response processing of `generateStepImage` (`test-nano-banana.js:253-290`).
The outer `Option` is the JavaScript return value itself: `none` models the
bare `null` returned by the `catch` branch when the external call throws;
`some (imageUrl, imageData)` models the `{ imageUrl, imageData }` record.
When the first inline image part saves successfully the record carries the
store URL and the bytes; when saving throws, the `catch (saveError)` branch
logs, `break`s, and the function falls through to `{ null, null }`; a response
without an inline image part also yields `{ null, null }`. -/
def processStepImageResponse (callResult : StepCallResult)
    (saveResult : Except Unit String) : Option (Option String × Option InlineData) :=
  match callResult with
  | StepCallResult.callError => none
  | StepCallResult.noImage => some (none, none)
  | StepCallResult.image d =>
      match saveResult with
      | Except.ok imageUrl => some (some imageUrl, some d)
      | Except.error _ => some (none, none)

/-- `generateStepImage` (`test-nano-banana.js:219-291`): build the prompt and
content array, issue the call (outcome given by `callResult`), persist the
returned image (outcome given by `saveResult`). Returns the content that was
sent together with the JavaScript return value. -/
def generateStepImage (stepDescription : String) (referenceImageData : InlineData)
    (previousStepsImagesData : List InlineData) (stepNumber totalSteps : Nat)
    (callResult : StepCallResult) (saveResult : Except Unit String) :
    List ContentPart × Option (Option String × Option InlineData) :=
  let imagePrompt := stepImagePrompt stepDescription stepNumber totalSteps
  let content := stepImageContent imagePrompt referenceImageData previousStepsImagesData
  (content, processStepImageResponse callResult saveResult)

/-- `generateAudioNarration` (`test-nano-banana.js:382-391`): the placeholder
implementation ignores its input and always returns the stub filename. -/
def generateAudioNarration (_text : String) : String := "audio_placeholder.mp3"

/-- A minimal filesystem state: the set of directories that exist and the list
of file paths that have been written. -/
structure FileSys where
  dirs : List String
  files : List String
deriving DecidableEq, Repr

/-- Extension chosen from the MIME type by `saveGeneratedImage`
(`test-nano-banana.js:185-199`). -/
def extensionFor (mimeType : String) : String :=
  if mimeType = "image/png" then ".png"
  else if mimeType = "image/jpeg" ∨ mimeType = "image/jpg" then ".jpg"
  else if mimeType = "image/gif" then ".gif"
  else ".png"

/-- `saveGeneratedImage` (`test-nano-banana.js:182-214`): joins `generated`
with the filename and extension and writes the bytes with `fs.writeFileSync`,
returning the `/generated/...` URL path. The function performs no directory
creation of its own, so the write throws (modelled as `Except.error`) when the
`generated` directory does not exist. -/
def saveGeneratedImage (fs : FileSys) (_imageData mimeType filename : String) :
    Except Unit (FileSys × String) :=
  let filePath := "generated/" ++ filename ++ extensionFor mimeType
  if fs.dirs.contains "generated" then
    Except.ok ({ fs with files := fs.files ++ [filePath] },
      "/generated/" ++ filename ++ extensionFor mimeType)
  else Except.error ()

/-- `if (!fs.existsSync(dir)) fs.mkdirSync(dir)` (`test-nano-banana.js:166-170`). -/
def ensureDir (fs : FileSys) (dir : String) : FileSys :=
  if fs.dirs.contains dir then fs else { fs with dirs := fs.dirs ++ [dir] }

/-- Startup directory creation (`test-nano-banana.js:166-170`): ensure
`uploads` and `generated` exist. -/
def startupDirs (fs : FileSys) : FileSys :=
  ensureDir (ensureDir fs "uploads") "generated"

/-- Oracle describing what every external interaction of one
`POST /api/generate-tutorial` request returns. `sketch` is the result of
`generatePencilSketchFromImage`, which returns either a saved URL together
with the sketch bytes or a `{ null, null }` record (modelled as `none`);
`analyze` is `analyzeImage`, which rethrows on failure; `stepCountResp` and
`planResp` are the raw model texts (or the thrown error) consumed by
`determineOptimalSteps` and `generateTutorialPlan`; `stepCall i` and
`stepSave i` are the call and save outcomes for loop iteration `i`
(0-based). -/
structure Oracle where
  hasFile : Bool
  difficulty : Option String
  sketch : Option (String × InlineData)
  analyze : Except Unit String
  stepCountResp : Except Unit String
  planResp : Except Unit String
  stepCall : Nat → StepCallResult
  stepSave : Nat → Except Unit String

/-- One entry of the response `steps` array (`test-nano-banana.js:613-618`). -/
structure StepRecord where
  step : Nat
  description : String
  imageUrl : Option String
  audio : Option String
deriving DecidableEq, Repr

/-- The `sketch` object of the response (`test-nano-banana.js:642-646`). -/
structure SketchOut where
  imageUrl : String
  description : String
  audio : String
deriving DecidableEq, Repr

/-- Result of the `POST /api/generate-tutorial` handler: a 400 with an error
message, a 500 from the top-level `catch`, or the 200 JSON payload. -/
inductive HandlerResult where
  | badRequest (error : String)
  | serverError
  | ok (sketch : SketchOut) (steps : List StepRecord)
deriving DecidableEq, Repr

/-- Mutable state of the generation loop: the accumulated `steps` array, the
`previousStepsImagesData` window, and the trace of content arrays sent to the
step-image model (one per issued call, in order). -/
structure LoopState where
  steps : List StepRecord
  window : List InlineData
  trace : List (List ContentPart)
deriving DecidableEq, Repr

/-- `tutorialPlan[i] || %fallback%` (`test-nano-banana.js:599`): a missing or
empty (falsy) plan entry is replaced by the generic per-step text. -/
def stepDescriptionFor (tutorialPlan : List String) (i : Nat) : String :=
  match tutorialPlan.get? i with
  | some s => if s = "" then "Work on part " ++ toString (i + 1) ++ " of your drawing." else s
  | none => "Work on part " ++ toString (i + 1) ++ " of your drawing."

/-- Window update after one step (`test-nano-banana.js:621-628`): push the new
image data when present, then `shift()` the oldest entry once the length
exceeds 2. -/
def updateWindow (window : List InlineData) : Option InlineData → List InlineData
  | none => window
  | some d =>
      let w := window ++ [d]
      if w.length > 2 then w.drop 1 else w

/-- The generation loop (`test-nano-banana.js:594-629`), iterating `remaining`
more times starting at index `i`. Each iteration calls `generateStepImage`;
a bare-`null` return makes the destructuring
`const { imageUrl, imageData } = ...` throw, aborting the whole handler
(modelled as `Except.error`). Otherwise the step record is pushed and the
window updated. -/
def stepIter (o : Oracle) (referenceSketchData : InlineData) (tutorialPlan : List String)
    (totalSteps : Nat) : Nat → Nat → LoopState → Except Unit LoopState
  | 0, _, st => Except.ok st
  | remaining + 1, i, st =>
      let stepDescription := stepDescriptionFor tutorialPlan i
      let callRes := generateStepImage stepDescription referenceSketchData st.window
        (i + 1) totalSteps (o.stepCall i) (o.stepSave i)
      match callRes.2 with
      | none => Except.error ()
      | some (imageUrl, imageData) =>
          stepIter o referenceSketchData tutorialPlan totalSteps remaining (i + 1)
            { steps := st.steps ++
                [{ step := i + 1, description := stepDescription,
                   imageUrl := imageUrl, audio := none }],
              window := updateWindow st.window imageData,
              trace := st.trace ++ [callRes.1] }

/-- The generation loop run from its initial state. -/
def runLoop (o : Oracle) (referenceSketchData : InlineData) (tutorialPlan : List String)
    (totalSteps : Nat) : Except Unit LoopState :=
  stepIter o referenceSketchData tutorialPlan totalSteps totalSteps 0 ⟨[], [], []⟩

/-- The `POST /api/generate-tutorial` handler (`test-nano-banana.js:551-653`):
validate inputs (400s), synthesize the reference sketch (a falsy URL throws →
500), analyze the image (a throw is fatal → 500), estimate the step count,
generate the plan, run the generation loop (its abort → 500), then attach the
placeholder audio to the sketch and to every step and assemble the 200
payload. -/
def generateTutorialHandler (o : Oracle) : HandlerResult :=
  if o.hasFile = false then HandlerResult.badRequest "No image provided"
  else match o.difficulty with
  | none => HandlerResult.badRequest "Difficulty level is required"
  | some difficulty =>
    if difficulty = "" then HandlerResult.badRequest "Difficulty level is required"
    else match o.sketch with
    | none => HandlerResult.serverError
    | some (referenceSketchUrl, referenceSketchData) =>
      if referenceSketchUrl = "" then HandlerResult.serverError
      else match o.analyze with
      | Except.error _ => HandlerResult.serverError
      | Except.ok imageDescription =>
        let totalSteps := (determineOptimalStepsE o.stepCountResp).toNat
        let tutorialPlan := generateTutorialPlan o.planResp totalSteps
        match runLoop o referenceSketchData tutorialPlan totalSteps with
        | Except.error _ => HandlerResult.serverError
        | Except.ok st =>
          let sketchAudio := generateAudioNarration imageDescription
          let steps := st.steps.map
            (fun r => { r with audio := some (generateAudioNarration r.description) })
          HandlerResult.ok
            { imageUrl := referenceSketchUrl, description := imageDescription,
              audio := sketchAudio } steps

/-- The step count the handler uses for oracle `o`. -/
def totalStepsOf (o : Oracle) : Nat := (determineOptimalStepsE o.stepCountResp).toNat

/-- The tutorial plan the handler uses for oracle `o`. -/
def planOf (o : Oracle) : List String :=
  generateTutorialPlan o.planResp (totalStepsOf o)

/-- The JavaScript return value of `generateStepImage` at loop index `i`
(it depends only on the call and save outcomes). -/
def stepResult (o : Oracle) (i : Nat) : Option (Option String × Option InlineData) :=
  processStepImageResponse (o.stepCall i) (o.stepSave i)

/-- The image bytes loop index `i` contributes to the window (`imageData`). -/
def stepData (o : Oracle) (i : Nat) : Option InlineData :=
  match stepResult o i with
  | some (_, d) => d
  | none => none

/-- The stored URL loop index `i` contributes to its step record. -/
def stepUrl (o : Oracle) (i : Nat) : Option String :=
  match stepResult o i with
  | some (u, _) => u
  | none => none

/-- All step images produced before loop index `i`, in production order. -/
def producedImages (o : Oracle) (i : Nat) : List InlineData :=
  (List.range i).filterMap (stepData o)

/-- The `previousStepsImagesData` window at the start of loop index `i`. -/
def windowAtStep (o : Oracle) : Nat → List InlineData
  | 0 => []
  | i + 1 => updateWindow (windowAtStep o i) (stepData o i)

/-- The last at most two elements of a list. -/
def lastTwo : List α → List α
  | [] => []
  | [a] => [a]
  | [a, b] => [a, b]
  | _ :: b :: c :: rest => lastTwo (b :: c :: rest)

/-- The step record the loop pushes at index `i` (before audio is attached). -/
def stepRecordFor (o : Oracle) (tutorialPlan : List String) (i : Nat) : StepRecord :=
  { step := i + 1, description := stepDescriptionFor tutorialPlan i,
    imageUrl := stepUrl o i, audio := none }

/-- The content array sent to the step-image model at loop index `i`. -/
def contentAtStep (o : Oracle) (referenceSketchData : InlineData)
    (tutorialPlan : List String) (totalSteps i : Nat) : List ContentPart :=
  stepImageContent (stepImagePrompt (stepDescriptionFor tutorialPlan i) (i + 1) totalSteps)
    referenceSketchData (windowAtStep o i)

end NanoBanana

namespace SaveDemo

/-- `saveGeneratedImage` from the unnamed demo module
(`src/unnamed/part_000:14-52`): same extension mapping, but the destination is
`generated_images` and the directory is created (recursively, idempotently)
before writing, so the write itself cannot fail for a missing directory. The
returned reference is the joined file path. -/
def saveGeneratedImage (fs : NanoBanana.FileSys) (_imageData mimeType filename : String) :
    Except Unit (NanoBanana.FileSys × String) :=
  let filePath := "generated_images/" ++ filename ++ NanoBanana.extensionFor mimeType
  let fs1 := NanoBanana.ensureDir fs "generated_images"
  Except.ok ({ fs1 with files := fs1.files ++ [filePath] }, filePath)

end SaveDemo

namespace NanoBanana

/-- Reference sketch bytes used in concrete runs. -/
def refFix : InlineData := ⟨"REFDATA", "image/png"⟩

/-- Step-image bytes produced by the first loop iteration in concrete runs. -/
def imgFix : InlineData := ⟨"IMG1", "image/png"⟩

/-- A fully successful oracle (all external calls return normally; the plan
call throws, so the generic plan is used; no step produces an image). -/
def oracleWit : Oracle :=
  { hasFile := true, difficulty := some "beginner",
    sketch := some ("/generated/r.png", refFix),
    analyze := Except.ok "a cat",
    stepCountResp := Except.ok "8",
    planResp := Except.error (),
    stepCall := fun _ => StepCallResult.noImage,
    stepSave := fun _ => Except.ok "/generated/s.png" }

/-- Like `oracleWit`, but the first loop iteration produces an image and the
second produces none. -/
def oracleSkip : Oracle :=
  { oracleWit with
    stepCall := fun i => if i = 0 then StepCallResult.image imgFix else StepCallResult.noImage }

/-- Like `oracleWit`, but every step-image external call throws. -/
def oracleThrow : Oracle :=
  { oracleWit with stepCall := fun _ => StepCallResult.callError }

/-- Like `oracleWit`, but the first step-image call returns an image whose
save then throws. -/
def oracleSaveFail : Oracle :=
  { oracleWit with
    stepCall := fun i => if i = 0 then StepCallResult.image imgFix else StepCallResult.noImage,
    stepSave := fun i => if i = 0 then Except.error () else Except.ok "/generated/s.png" }

/-- The `sketch` object of the 200 response under `oracleWit`. -/
def sketchWit : SketchOut :=
  { imageUrl := "/generated/r.png", description := "a cat", audio := "audio_placeholder.mp3" }

/-- The `steps` array of the 200 response under `oracleWit`. -/
def stepsWit : List StepRecord :=
  (List.range 8).map (fun i =>
    { step := i + 1, description := "Work on part " ++ toString (i + 1) ++ " of your drawing.",
      imageUrl := none, audio := some "audio_placeholder.mp3" })

end NanoBanana


namespace NanoBanana

lemma parseStepLine_ne_empty {line s : String} (h : parseStepLine line = some s) :
    s ≠ "" := by
  simp only [parseStepLine] at h
  split at h
  · exact absurd h (by simp)
  · rename_i afterDot heq
    split at h
    · exact absurd h (by simp)
    · rename_i hne
      obtain rfl : _ = s := Option.some.inj h
      exact hne
  · exact absurd h (by simp)

lemma collectPlanSteps_eq (lines : List String) (acc : List String) :
    collectPlanSteps lines acc = acc ++ lines.filterMap parseStepLine := by
  induction lines generalizing acc with
  | nil => simp [collectPlanSteps]
  | cons line rest ih =>
      simp only [collectPlanSteps, List.filterMap_cons]
      cases h : parseStepLine line with
      | none => simp [h, ih]
      | some s => simp [h, ih]

lemma padPlanGo_eq (totalSteps : Nat) (fuel : Nat) (steps : List String)
    (hfuel : totalSteps - steps.length ≤ fuel) :
    padPlanGo totalSteps fuel steps =
      steps ++ List.replicate (totalSteps - steps.length) fillerStep := by
  induction fuel generalizing steps with
  | zero =>
      have h0 : totalSteps - steps.length = 0 := by omega
      simp [padPlanGo, h0]
  | succ fuel ih =>
      simp only [padPlanGo]
      split
      · rename_i hlt
        rw [ih (steps ++ [fillerStep]) (by simp; omega)]
        rw [List.append_assoc]
        congr 1
        have hsplit : totalSteps - steps.length = (totalSteps - (steps.length + 1)) + 1 := by
          omega
        rw [List.length_append, hsplit, List.replicate_succ]
        rfl
      · rename_i hge
        have h0 : totalSteps - steps.length = 0 := by omega
        simp [h0]

lemma generateTutorialPlanFromText_eq (planText : String) (totalSteps : Nat) :
    generateTutorialPlanFromText planText totalSteps =
      (((splitOnNewline planText.data).filterMap parseStepLine) ++
        List.replicate
          (totalSteps - ((splitOnNewline planText.data).filterMap parseStepLine).length)
          fillerStep).take totalSteps := by
  unfold generateTutorialPlanFromText padPlan
  rw [collectPlanSteps_eq, List.nil_append, padPlanGo_eq]
  omega

lemma generateTutorialPlanFromText_length (planText : String) (totalSteps : Nat) :
    (generateTutorialPlanFromText planText totalSteps).length = totalSteps := by
  rw [generateTutorialPlanFromText_eq]
  rw [List.length_take, List.length_append, List.length_replicate]
  omega

lemma generateTutorialPlanFromText_ne_empty {planText : String} {totalSteps : Nat}
    {s : String} (hs : s ∈ generateTutorialPlanFromText planText totalSteps) :
    s ≠ "" := by
  rw [generateTutorialPlanFromText_eq] at hs
  have hs' := List.take_subset _ _ hs
  rcases List.mem_append.1 hs' with h | h
  · rcases List.mem_filterMap.1 h with ⟨line, _, hline⟩
    exact parseStepLine_ne_empty hline
  · rw [(List.mem_replicate.1 h).2]
    decide

lemma workOnPart_ne_empty (i : Nat) :
    ("Work on part " ++ toString i ++ " of your drawing." : String) ≠ "" := by
  intro h
  have hlen := congrArg String.length h
  rw [String.length_append, String.length_append] at hlen
  have h13 : ("Work on part " : String).length = 13 := rfl
  have h0 : ("" : String).length = 0 := rfl
  omega

lemma genericPlan_length (totalSteps : Nat) : (genericPlan totalSteps).length = totalSteps := by
  simp [genericPlan]

lemma genericPlan_getElem? {i totalSteps : Nat} (h : i < totalSteps) :
    (genericPlan totalSteps)[i]? =
      some ("Work on part " ++ toString (i + 1) ++ " of your drawing.") := by
  simp [genericPlan, List.getElem?_map, List.getElem?_range h]

lemma genericPlan_ne_empty {totalSteps : Nat} {s : String}
    (hs : s ∈ genericPlan totalSteps) : s ≠ "" := by
  rcases List.mem_map.1 hs with ⟨i, _, rfl⟩
  exact workOnPart_ne_empty (i + 1)

lemma generateTutorialPlan_length (resp : Except Unit String) (totalSteps : Nat) :
    (generateTutorialPlan resp totalSteps).length = totalSteps := by
  cases resp with
  | ok t => exact generateTutorialPlanFromText_length t totalSteps
  | error e => exact genericPlan_length totalSteps

lemma generateTutorialPlan_ne_empty {resp : Except Unit String} {totalSteps : Nat}
    {s : String} (hs : s ∈ generateTutorialPlan resp totalSteps) : s ≠ "" := by
  cases resp with
  | ok t => exact generateTutorialPlanFromText_ne_empty hs
  | error e => exact genericPlan_ne_empty hs

lemma stepDescriptionFor_of_getElem? {plan : List String} {i : Nat} {s : String}
    (h : plan[i]? = some s) (hs : s ≠ "") : stepDescriptionFor plan i = s := by
  simp [stepDescriptionFor, List.get?_eq_getElem?, h, hs]

end NanoBanana

namespace NanoBanana

lemma lastTwo_length_le : ∀ (l : List InlineData), (lastTwo l).length ≤ 2
  | [] => by simp [lastTwo]
  | [a] => by simp [lastTwo]
  | [a, b] => by simp [lastTwo]
  | a :: b :: c :: rest => by
      rw [show lastTwo (a :: b :: c :: rest) = lastTwo (b :: c :: rest) by simp [lastTwo]]
      exact lastTwo_length_le (b :: c :: rest)

lemma lastTwo_getLast? : ∀ (l : List InlineData), (lastTwo l).getLast? = l.getLast?
  | [] => rfl
  | [a] => rfl
  | [a, b] => rfl
  | a :: b :: c :: rest => by
      rw [show lastTwo (a :: b :: c :: rest) = lastTwo (b :: c :: rest) by simp [lastTwo]]
      rw [lastTwo_getLast? (b :: c :: rest)]
      simp [List.getLast?_cons_cons]

lemma updateWindow_lastTwo : ∀ (p : List InlineData) (dOpt : Option InlineData),
    updateWindow (lastTwo p) dOpt = lastTwo (p ++ dOpt.toList)
  | p, none => by simp [updateWindow]
  | [], some d => by simp [updateWindow, lastTwo]
  | [a], some d => by simp [updateWindow, lastTwo]
  | [a, b], some d => by simp [updateWindow, lastTwo]
  | a :: b :: c :: rest, some d => by
      rw [show lastTwo (a :: b :: c :: rest) = lastTwo (b :: c :: rest) by simp [lastTwo]]
      rw [updateWindow_lastTwo (b :: c :: rest) (some d)]
      simp only [Option.toList_some, List.cons_append]
      rw [show lastTwo (a :: b :: c :: (rest ++ [d])) = lastTwo (b :: c :: (rest ++ [d])) by
        simp [lastTwo]]

lemma producedImages_succ (o : Oracle) (i : Nat) :
    producedImages o (i + 1) = producedImages o i ++ (stepData o i).toList := by
  unfold producedImages
  rw [List.range_succ, List.filterMap_append]
  cases h : stepData o i <;> simp [h]

lemma windowAtStep_eq (o : Oracle) : ∀ i, windowAtStep o i = lastTwo (producedImages o i)
  | 0 => by simp [windowAtStep, producedImages, lastTwo]
  | i + 1 => by
      rw [show windowAtStep o (i + 1) = updateWindow (windowAtStep o i) (stepData o i) from rfl]
      rw [windowAtStep_eq o i, updateWindow_lastTwo, producedImages_succ]

lemma windowAtStep_length_le (o : Oracle) (i : Nat) : (windowAtStep o i).length ≤ 2 := by
  rw [windowAtStep_eq]
  exact lastTwo_length_le _

lemma windowAtStep_getLast? (o : Oracle) (i : Nat) :
    (windowAtStep o i).getLast? = (producedImages o i).getLast? := by
  rw [windowAtStep_eq]
  exact lastTwo_getLast? _

lemma stepImageContent_eq (p : String) (ref : InlineData) (w : List InlineData) :
    stepImageContent p ref w =
      [ContentPart.text p, ContentPart.inlineImage ref] ++
        (w.getLast?.toList.map ContentPart.inlineImage) := by
  unfold stepImageContent
  split
  · rename_i hlen
    have hget : w.getLast? = some (w.get ⟨w.length - 1, by omega⟩) := by
      rw [List.getLast?_eq_getElem?, List.getElem?_eq_getElem (by omega)]
      simp
    rw [hget]
    simp
  · rename_i hlen
    have hnil : w = [] := by
      cases w with
      | nil => rfl
      | cons a t => simp at hlen
    simp [hnil]

end NanoBanana

namespace NanoBanana

lemma stepData_of_stepResult {o : Oracle} {i : Nat} {u : Option String}
    {d : Option InlineData} (h : stepResult o i = some (u, d)) :
    stepData o i = d ∧ stepUrl o i = u := by
  constructor <;> simp [stepData, stepUrl, h]

lemma stepIter_ok_inv (o : Oracle) (ref : InlineData) (plan : List String) (N : Nat) :
    ∀ (remaining i : Nat) (st st' : LoopState),
      st.window = windowAtStep o i →
      stepIter o ref plan N remaining i st = Except.ok st' →
      st'.steps = st.steps ++ (List.range' i remaining).map (stepRecordFor o plan) ∧
      st'.trace = st.trace ++ (List.range' i remaining).map (contentAtStep o ref plan N) ∧
      st'.window = windowAtStep o (i + remaining) := by
  intro remaining
  induction remaining with
  | zero =>
      intro i st st' hw h
      simp only [stepIter] at h
      obtain rfl : st = st' := Except.ok.inj h
      simp [hw]
  | succ remaining ih =>
      intro i st st' hw h
      simp only [stepIter, generateStepImage] at h
      rcases hres : processStepImageResponse (o.stepCall i) (o.stepSave i)
        with _ | ⟨u, d⟩
      · rw [hres] at h
        exact absurd h (by simp)
      · rw [hres] at h
        have hres' : stepResult o i = some (u, d) := hres
        obtain ⟨hd, hu⟩ := stepData_of_stepResult hres'
        have hw1 : (⟨st.steps ++
              [{ step := i + 1, description := stepDescriptionFor plan i,
                 imageUrl := u, audio := none }],
            updateWindow st.window d,
            st.trace ++ [stepImageContent
              (stepImagePrompt (stepDescriptionFor plan i) (i + 1) N) ref st.window]⟩ :
            LoopState).window = windowAtStep o (i + 1) := by
          show updateWindow st.window d = windowAtStep o (i + 1)
          rw [show windowAtStep o (i + 1) = updateWindow (windowAtStep o i) (stepData o i)
            from rfl, hw, hd]
        obtain ⟨hsteps, htrace, hwin⟩ := ih (i + 1) _ st' hw1 h
        refine ⟨?_, ?_, ?_⟩
        · rw [hsteps]
          rw [List.append_assoc, List.range'_succ, List.map_cons]
          congr 1
          rw [List.singleton_append]
          congr 1
          simp [stepRecordFor, hu]
        · rw [htrace]
          rw [List.append_assoc, List.range'_succ, List.map_cons]
          congr 1
          rw [List.singleton_append]
          congr 1
          simp [contentAtStep, hw]
        · rw [hwin]
          congr 1
          omega
  
lemma stepIter_ok_exists (o : Oracle) (ref : InlineData) (plan : List String) (N : Nat) :
    ∀ (remaining i : Nat) (st : LoopState),
      (∀ j, i ≤ j → j < i + remaining → stepResult o j ≠ none) →
      ∃ st', stepIter o ref plan N remaining i st = Except.ok st' := by
  intro remaining
  induction remaining with
  | zero => intro i st _; exact ⟨st, rfl⟩
  | succ remaining ih =>
      intro i st hres
      simp only [stepIter, generateStepImage]
      rcases h : processStepImageResponse (o.stepCall i) (o.stepSave i) with _ | ⟨u, d⟩
      · exact absurd h (hres i (le_refl i) (by omega))
      · exact ih (i + 1) _ (fun j hj hj' => hres j (by omega) (by omega))

lemma runLoop_ok_inv {o : Oracle} {ref : InlineData} {plan : List String} {N : Nat}
    {st' : LoopState} (h : runLoop o ref plan N = Except.ok st') :
    st'.steps = (List.range N).map (stepRecordFor o plan) ∧
    st'.trace = (List.range N).map (contentAtStep o ref plan N) ∧
    st'.window = windowAtStep o N := by
  have hinv := stepIter_ok_inv o ref plan N N 0 ⟨[], [], []⟩ st' rfl h
  rw [List.range_eq_range']
  simpa using hinv

lemma runLoop_ok_exists (o : Oracle) (ref : InlineData) (plan : List String) (N : Nat)
    (hres : ∀ j, j < N → stepResult o j ≠ none) :
    ∃ st', runLoop o ref plan N = Except.ok st' :=
  stepIter_ok_exists o ref plan N N 0 ⟨[], [], []⟩ (fun j _ hj => hres j (by omega))

lemma handler_ok_inv {o : Oracle} {sk : SketchOut} {steps : List StepRecord}
    (h : generateTutorialHandler o = HandlerResult.ok sk steps) :
    ∃ url data desc st,
      o.sketch = some (url, data) ∧ o.analyze = Except.ok desc ∧
      runLoop o data (planOf o) (totalStepsOf o) = Except.ok st ∧
      sk = ⟨url, desc, "audio_placeholder.mp3"⟩ ∧
      steps = st.steps.map (fun r => { r with audio := some "audio_placeholder.mp3" }) := by
  unfold planOf totalStepsOf
  simp only [generateTutorialHandler, generateAudioNarration] at h
  split at h
  · exact absurd h (by simp)
  · split at h
    · exact absurd h (by simp)
    · split at h
      · exact absurd h (by simp)
      · split at h
        · exact absurd h (by simp)
        · split at h
          · exact absurd h (by simp)
          · split at h
            · exact absurd h (by simp)
            · split at h
              · exact absurd h (by simp)
              · rename_i hfile xd diff hdiff hdne xs url data hsk hurl xa desc hana xl st hloop
                have hinj := HandlerResult.ok.inj h
                exact ⟨url, data, desc, st, hsk, hana, hloop, hinj.1.symm, hinj.2.symm⟩

end NanoBanana

namespace NanoBanana

lemma stepResult_eq_none_iff (o : Oracle) (i : Nat) :
    stepResult o i = none ↔ o.stepCall i = StepCallResult.callError := by
  unfold stepResult processStepImageResponse
  cases o.stepCall i with
  | callError => simp
  | noImage => simp
  | image d => cases o.stepSave i <;> simp

lemma handler_ok_of {o : Oracle} {diff url : String} {data : InlineData} {desc : String}
    {st : LoopState}
    (hfile : o.hasFile = true) (hdiff : o.difficulty = some diff) (hdne : diff ≠ "")
    (hsk : o.sketch = some (url, data)) (hurl : url ≠ "")
    (hana : o.analyze = Except.ok desc)
    (hloop : runLoop o data (planOf o) (totalStepsOf o) = Except.ok st) :
    generateTutorialHandler o =
      HandlerResult.ok ⟨url, desc, "audio_placeholder.mp3"⟩
        (st.steps.map (fun r => { r with audio := some "audio_placeholder.mp3" })) := by
  unfold planOf totalStepsOf at hloop
  simp [generateTutorialHandler, hfile, hdiff, hdne, hsk, hurl, hana, hloop,
    generateAudioNarration]

/-- C3: for every raw step-count model text, the trimmed text is parsed with
JavaScript `parseInt`; a failed parse or a value outside `[8, 20]` yields
exactly 12, otherwise the parsed integer itself (which lies in `[8, 20]`) is
returned, and a thrown external call also yields 12. -/
theorem claimC3_stepCountPolicy (resp : Except Unit String) :
    ((∃ e, resp = Except.error e) → determineOptimalStepsE resp = 12) ∧
    (∀ t, resp = Except.ok t → parseIntJS (jsTrim t) = none →
      determineOptimalStepsE resp = 12) ∧
    (∀ t n, resp = Except.ok t → parseIntJS (jsTrim t) = some n → (n < 8 ∨ 20 < n) →
      determineOptimalStepsE resp = 12) ∧
    (∀ t n, resp = Except.ok t → parseIntJS (jsTrim t) = some n → 8 ≤ n → n ≤ 20 →
      determineOptimalStepsE resp = n ∧ 8 ≤ n ∧ n ≤ 20) := by
  refine ⟨?_, ?_, ?_, ?_⟩
  · rintro ⟨e, rfl⟩; rfl
  · rintro t rfl hp
    simp only [determineOptimalStepsE, determineOptimalSteps, hp]
  · rintro t n rfl hp hb
    simp only [determineOptimalStepsE, determineOptimalSteps, hp]
    rw [if_pos hb]
  · rintro t n rfl hp h8 h20
    simp only [determineOptimalStepsE, determineOptimalSteps, hp]
    rw [if_neg (by omega)]
    exact ⟨rfl, h8, h20⟩

/-- C3 witness: the policy applied to the concrete model text `" 15 "`. -/
theorem claimC3_witness :
    determineOptimalStepsE (Except.ok " 15 ") = 15 ∧ (8 : Int) ≤ 15 ∧ (15 : Int) ≤ 20 :=
  (claimC3_stepCountPolicy (Except.ok " 15 ")).2.2.2 " 15 " 15 rfl (by decide)
    (by decide) (by decide)

/-- C4: for every plan model text and target step count, the plan parser
returns exactly `totalSteps` non-empty strings: the numbered lines (digits
then a period), stripped of the numeral and surrounding whitespace, in
first-seen order, padded at the tail with the literal filler when too few and
truncated to the first `totalSteps` when too many. -/
theorem claimC4_planShape (planText : String) (totalSteps : Nat) :
    (generateTutorialPlanFromText planText totalSteps).length = totalSteps ∧
    (∀ s, s ∈ generateTutorialPlanFromText planText totalSteps → s ≠ "") ∧
    generateTutorialPlanFromText planText totalSteps =
      (((splitOnNewline planText.data).filterMap parseStepLine) ++
        List.replicate
          (totalSteps - ((splitOnNewline planText.data).filterMap parseStepLine).length)
          fillerStep).take totalSteps ∧
    (∀ i, i < totalSteps → i < ((splitOnNewline planText.data).filterMap parseStepLine).length →
      (generateTutorialPlanFromText planText totalSteps)[i]? =
        ((splitOnNewline planText.data).filterMap parseStepLine)[i]?) ∧
    (∀ i, i < totalSteps → ((splitOnNewline planText.data).filterMap parseStepLine).length ≤ i →
      (generateTutorialPlanFromText planText totalSteps)[i]? = some fillerStep) := by
  refine ⟨generateTutorialPlanFromText_length _ _,
    fun s hs => generateTutorialPlanFromText_ne_empty hs,
    generateTutorialPlanFromText_eq _ _, ?_, ?_⟩
  · intro i hiN hip
    rw [generateTutorialPlanFromText_eq, List.getElem?_take, if_pos hiN,
      List.getElem?_append, if_pos hip]
  · intro i hiN hip
    rw [generateTutorialPlanFromText_eq, List.getElem?_take, if_pos hiN,
      List.getElem?_append, if_neg (by omega), List.getElem?_replicate,
      if_pos (by omega)]

/-- C4 witness: a model text with one numbered line and a target of two steps
is padded with the filler at index 1. -/
theorem claimC4_witness :
    (generateTutorialPlanFromText "1. Draw a circle\nnot numbered" 2)[1]? =
      some fillerStep :=
  (claimC4_planShape "1. Draw a circle\nnot numbered" 2).2.2.2.2 1 (by decide) (by decide)

end NanoBanana

namespace NanoBanana

/-- C5: when the external plan-generation call throws, `generateTutorialPlan`
returns the fully generic plan, of length exactly `totalSteps`, whose `i`-th
entry (1-based) is the literal `Work on part i of your drawing.`; and —
provided the remaining external calls return normally — the request still
completes with a 200 response whose step descriptions are exactly that
generic plan. -/
theorem claimC5_genericPlanOnFailure (o : Oracle) (diff url : String) (data : InlineData)
    (desc : String)
    (hfile : o.hasFile = true) (hdiff : o.difficulty = some diff) (hdne : diff ≠ "")
    (hsk : o.sketch = some (url, data)) (hurl : url ≠ "")
    (hana : o.analyze = Except.ok desc)
    (hplan : o.planResp = Except.error ())
    (hcalls : ∀ j, o.stepCall j ≠ StepCallResult.callError) :
    generateTutorialPlan o.planResp (totalStepsOf o) = genericPlan (totalStepsOf o) ∧
    (genericPlan (totalStepsOf o)).length = totalStepsOf o ∧
    (∀ i, i < totalStepsOf o → (genericPlan (totalStepsOf o))[i]? =
      some ("Work on part " ++ toString (i + 1) ++ " of your drawing.")) ∧
    (∃ sk steps, generateTutorialHandler o = HandlerResult.ok sk steps ∧
      steps.map StepRecord.description = genericPlan (totalStepsOf o)) := by
  have hplanEq : generateTutorialPlan o.planResp (totalStepsOf o) =
      genericPlan (totalStepsOf o) := by rw [hplan]; rfl
  refine ⟨hplanEq, genericPlan_length _, fun i hi => genericPlan_getElem? hi, ?_⟩
  obtain ⟨st, hloop⟩ := runLoop_ok_exists o data (planOf o) (totalStepsOf o)
    (fun j _ hnone => hcalls j ((stepResult_eq_none_iff o j).1 hnone))
  refine ⟨_, _, handler_ok_of hfile hdiff hdne hsk hurl hana hloop, ?_⟩
  obtain ⟨hsteps, -, -⟩ := runLoop_ok_inv hloop
  rw [hsteps, List.map_map, List.map_map]
  have hplanOf : planOf o = genericPlan (totalStepsOf o) := by
    unfold planOf
    exact hplanEq
  unfold genericPlan
  apply List.map_congr_left
  intro i hi
  have hi' : i < totalStepsOf o := List.mem_range.1 hi
  show (stepRecordFor o (planOf o) i).description = _
  unfold stepRecordFor
  show stepDescriptionFor (planOf o) i = _
  rw [hplanOf, stepDescriptionFor_of_getElem? (genericPlan_getElem? hi')
    (workOnPart_ne_empty _)]

/-- C5 witness: the generic-plan equation under the concrete oracle whose plan
call throws. -/
theorem claimC5_witness :
    generateTutorialPlan oracleWit.planResp (totalStepsOf oracleWit) =
      genericPlan (totalStepsOf oracleWit) :=
  (claimC5_genericPlanOnFailure oracleWit "beginner" "/generated/r.png" refFix "a cat"
    rfl rfl (by decide) rfl (by decide) rfl rfl
    (fun j => by simp [oracleWit])).1

/-- C6: every 200 response's `steps` array has exactly the estimator's count
of records, with `step` fields the contiguous integers `1..totalSteps` in
increasing order, and record `i`'s description equal to the `i`-th entry of
the generated plan. -/
theorem claimC6_stepsShape (o : Oracle) (sk : SketchOut) (steps : List StepRecord)
    (hok : generateTutorialHandler o = HandlerResult.ok sk steps) :
    steps.length = totalStepsOf o ∧
    (∀ i, i < totalStepsOf o → steps[i]?.map StepRecord.step = some (i + 1)) ∧
    (∀ i, i < totalStepsOf o →
      steps[i]?.map StepRecord.description = (planOf o)[i]?) := by
  obtain ⟨url, data, desc, st, hsk, hana, hloop, hskEq, hstepsEq⟩ := handler_ok_inv hok
  obtain ⟨hsteps, -, -⟩ := runLoop_ok_inv hloop
  subst hstepsEq
  rw [hsteps]
  refine ⟨by simp, ?_, ?_⟩
  · intro i hi
    rw [List.getElem?_map, List.getElem?_map, List.getElem?_range hi]
    rfl
  · intro i hi
    rw [List.getElem?_map, List.getElem?_map, List.getElem?_range hi]
    have hlen : (planOf o).length = totalStepsOf o := generateTutorialPlan_length _ _
    have hilen : i < (planOf o).length := by omega
    have hs : (planOf o)[i]? = some ((planOf o)[i]) := List.getElem?_eq_getElem hilen
    have hne : (planOf o)[i] ≠ "" :=
      generateTutorialPlan_ne_empty (List.getElem_mem hilen)
    rw [hs]
    show some (stepDescriptionFor (planOf o) i) = _
    rw [stepDescriptionFor_of_getElem? hs hne]

/-- C6 witness: the concrete successful run has exactly the estimated number
of step records. -/
theorem claimC6_witness : stepsWit.length = totalStepsOf oracleWit :=
  (claimC6_stepsShape oracleWit sketchWit stepsWit (by decide)).1

/-- C9: in every 200 response both the sketch audio field and the audio field
of every step record equal the literal `audio_placeholder.mp3`; no audio
field is null. -/
theorem claimC9_audioPlaceholder (o : Oracle) (sk : SketchOut) (steps : List StepRecord)
    (hok : generateTutorialHandler o = HandlerResult.ok sk steps) :
    sk.audio = "audio_placeholder.mp3" ∧
    ∀ r ∈ steps, r.audio = some "audio_placeholder.mp3" := by
  obtain ⟨url, data, desc, st, hsk, hana, hloop, hskEq, hstepsEq⟩ := handler_ok_inv hok
  subst hskEq
  subst hstepsEq
  refine ⟨rfl, ?_⟩
  intro r hr
  rcases List.mem_map.1 hr with ⟨r0, -, rfl⟩
  rfl

/-- C9 witness: the concrete successful run carries the placeholder audio on
the sketch. -/
theorem claimC9_witness : sketchWit.audio = "audio_placeholder.mp3" :=
  (claimC9_audioPlaceholder oracleWit sketchWit stepsWit (by decide)).1

end NanoBanana

namespace NanoBanana

lemma ensureDir_contains (fs : FileSys) (d : String) :
    (ensureDir fs d).dirs.contains d = true := by
  unfold ensureDir
  split
  · assumption
  · simp

/-- C8: for every completed generation loop, the `previousStepsImagesData`
window never holds more than 2 blobs; it consists of exactly the last
at-most-two previously produced step images in production order (oldest
evicted first); the calls actually issued are described by `contentAtStep`;
and every call includes at most one previous step's bytes — the single most
recent window entry. -/
theorem claimC8_windowInvariant (o : Oracle) (ref : InlineData) (plan : List String)
    (N : Nat) (st : LoopState) (hok : runLoop o ref plan N = Except.ok st) :
    (∀ i, (windowAtStep o i).length ≤ 2) ∧
    (∀ i, windowAtStep o i = lastTwo (producedImages o i)) ∧
    st.trace = (List.range N).map (contentAtStep o ref plan N) ∧
    (∀ i, contentAtStep o ref plan N i =
      [ContentPart.text (stepImagePrompt (stepDescriptionFor plan i) (i + 1) N),
        ContentPart.inlineImage ref] ++
        ((windowAtStep o i).getLast?.toList.map ContentPart.inlineImage) ∧
      ((windowAtStep o i).getLast?.toList.map ContentPart.inlineImage).length ≤ 1) := by
  obtain ⟨-, htrace, -⟩ := runLoop_ok_inv hok
  refine ⟨windowAtStep_length_le o, windowAtStep_eq o, htrace, ?_⟩
  intro i
  refine ⟨stepImageContent_eq _ _ _, ?_⟩
  cases h : (windowAtStep o i).getLast? <;> simp [h]

/-- C8 witness: the window bound at a concrete completed run. -/
theorem claimC8_witness : (windowAtStep oracleWit 5).length ≤ 2 :=
  (claimC8_windowInvariant oracleWit refFix (genericPlan 8) 8 _ rfl).1 5

/-- C2 (amended): the content sent for loop index `i` (step `i+1`) consists
of exactly the step prompt, the reference sketch bytes, and — when some
earlier step produced an image — the bytes of the single most recently
produced step image; and whenever step `i` itself produces an image, that
image is the most recently produced one for the next call. Bytes can thus
come from steps earlier than the immediately preceding one, but only when
every intervening step produced no image. -/
theorem claimC2_amended (o : Oracle) (ref : InlineData) (plan : List String)
    (N i : Nat) :
    contentAtStep o ref plan N i =
      [ContentPart.text (stepImagePrompt (stepDescriptionFor plan i) (i + 1) N),
        ContentPart.inlineImage ref] ++
        ((producedImages o i).getLast?.toList.map ContentPart.inlineImage) ∧
    (∀ d, stepData o i = some d → (producedImages o (i + 1)).getLast? = some d) := by
  constructor
  · have h := stepImageContent_eq
      (stepImagePrompt (stepDescriptionFor plan i) (i + 1) N) ref (windowAtStep o i)
    rw [windowAtStep_getLast?] at h
    exact h
  · intro d hd
    rw [producedImages_succ, hd]
    simp

/-- C2 witness: at the concrete run where step 1 produced an image, that
image is the most recently produced one entering step 2. -/
theorem claimC2_witness : (producedImages oracleSkip 1).getLast? = some imgFix :=
  (claimC2_amended oracleSkip refFix (genericPlan 8) 8 0).2 imgFix (by decide)

/-- C2 counterexample: in the run where step 1 produced an image and step 2
produced none, the content sent for step 3 contains step 1's bytes — bytes of
step i−2 — refuting the claim that only step i−1's image bytes can accompany
the prompt and the reference sketch. -/
theorem claimC2_counterexample :
    (match runLoop oracleSkip refFix (genericPlan 8) 8 with
      | Except.ok st => (st.trace.getD 2 []).contains (ContentPart.inlineImage imgFix)
      | Except.error _ => false) = true ∧
    stepData oracleSkip 0 = some imgFix ∧
    stepData oracleSkip 1 = none ∧
    imgFix ≠ refFix := by
  exact ⟨by decide, by decide, by decide, by decide⟩

/-- C10: when a step's external call returns an image whose persistence then
throws, `generateStepImage` catches the save error and returns the
`{ null, null }` record, so the loop iteration completes normally: the step
record gets a null imageUrl and the context window is unchanged. -/
theorem claimC10_saveFailure (o : Oracle) (i : Nat) (d : InlineData)
    (hc : o.stepCall i = StepCallResult.image d)
    (hs : o.stepSave i = Except.error ()) :
    stepResult o i = some (none, none) ∧
    stepUrl o i = none ∧ stepData o i = none ∧
    (∀ desc ref prev n N,
      (generateStepImage desc ref prev n N (o.stepCall i) (o.stepSave i)).2 =
        some (none, none)) ∧
    (∀ ref plan N st, stepIter o ref plan N 1 i st =
      Except.ok ⟨st.steps ++
          [{ step := i + 1, description := stepDescriptionFor plan i,
             imageUrl := none, audio := none }],
        st.window,
        st.trace ++ [stepImageContent
          (stepImagePrompt (stepDescriptionFor plan i) (i + 1) N) ref st.window]⟩) := by
  have hres : stepResult o i = some (none, none) := by
    simp [stepResult, processStepImageResponse, hc, hs]
  have hres' : processStepImageResponse (o.stepCall i) (o.stepSave i) =
      some (none, none) := hres
  refine ⟨hres, by simp [stepUrl, hres], by simp [stepData, hres], ?_, ?_⟩
  · intro desc ref prev n N
    simp [generateStepImage, hres']
  · intro ref plan N st
    simp only [stepIter, generateStepImage, hres']
    rfl

/-- C10 witness: the save-failure outcome at the concrete oracle whose first
step's save throws. -/
theorem claimC10_witness : stepResult oracleSaveFail 0 = some (none, none) :=
  (claimC10_saveFailure oracleSaveFail 0 imgFix (by decide) rfl).1

/-- C1: evaluation at the failing input. When the external step-image call
throws, `generateStepImage`'s catch branch returns the bare JavaScript `null`
(`none`) rather than the `{ null, null }` record, and the orchestrator's
destructuring of that `null` throws in turn, so the whole request ends in a
500 server error instead of completing with a null-image step. -/
theorem claimC1_throwAborts :
    (generateStepImage "Draw the outline" refFix [] 1 8 StepCallResult.callError
      (Except.ok "/generated/s.png")).2 = none ∧
    generateTutorialHandler oracleThrow = HandlerResult.serverError := by
  exact ⟨rfl, by decide⟩

/-- C7 counterexample: the server's `saveGeneratedImage`, called while the
`generated` directory does not exist, fails (the write throws) rather than
creating the directory and succeeding. -/
theorem claimC7_counterexample :
    saveGeneratedImage ⟨[], []⟩ "DATA" "image/png" "img" = Except.error () := rfl

/-- C7 (amended): the unnamed demo module's `saveGeneratedImage` ensures its
destination directory exists (idempotent create) before writing and so
succeeds even when the directory is absent; the server's `saveGeneratedImage`
performs no per-call directory creation and succeeds exactly when `generated`
already exists — which the server guarantees once at startup, not per
call. -/
theorem claimC7_amended (fs : FileSys) (imageData mimeType filename : String) :
    (∃ fs' p, SaveDemo.saveGeneratedImage fs imageData mimeType filename =
        Except.ok (fs', p) ∧ fs'.dirs.contains "generated_images" = true) ∧
    (fs.dirs.contains "generated" = true →
      saveGeneratedImage fs imageData mimeType filename =
        Except.ok ({ fs with files := fs.files ++
            ["generated/" ++ filename ++ extensionFor mimeType] },
          "/generated/" ++ filename ++ extensionFor mimeType)) ∧
    (startupDirs fs).dirs.contains "generated" = true := by
  refine ⟨?_, ?_, ?_⟩
  · refine ⟨_, _, rfl, ?_⟩
    exact ensureDir_contains fs "generated_images"
  · intro h
    unfold saveGeneratedImage
    rw [if_pos h]
  · exact ensureDir_contains (ensureDir fs "uploads") "generated"

/-- C7 witness: a concrete successful server-side store when the directory
exists. -/
theorem claimC7_witness :
    saveGeneratedImage ⟨["generated"], []⟩ "DATA" "image/png" "img" =
      Except.ok (⟨["generated"], ["generated/img.png"]⟩, "/generated/img.png") :=
  (claimC7_amended ⟨["generated"], []⟩ "DATA" "image/png" "img").2.1 (by decide)

end NanoBanana
